import Mathlib

/-!
Shallow embedding of the ECS core of SimpleEntEngine
(src/engine/src/ECS/ECS.hpp, src/engine/src/ECS/ECS.cpp,
src/engine/src/Utils/Pool.hpp).

Modelling decisions:
* An `Entity` in the source is a plain integer id together with a registry
  back pointer; equality and ordering are by id alone, so entities are
  represented by their `Nat` id.  `std::set<Entity>` and `std::set<int>`
  become `Finset Nat`, `std::deque<int>` (used FIFO: `push_back`/`front`/
  `pop_front`) becomes `List Nat` with head = front.
* `Signature` (`std::bitset<64>`) becomes `Finset (Fin 64)`;
  `(a & b) == b` is `b ⊆ a`, `set c` is `insert c`, `set c false` is
  `erase c`, `reset` is `∅`, `test c` is `c ∈ ·`.
* The heterogeneous pool collection (`vector<shared_ptr<IPool>>`, holding a
  `Pool<T>` per component type, downcast by component id) is modelled with a
  single component payload type `α`: `List (Option (Pool α))`, `none` being
  the null `shared_ptr`.  `std::vector<T>::resize` is `vectorResize`
  (truncate or pad with default-constructed values).
* The system map (`unordered_map<type_index, shared_ptr<System>>`) becomes
  an association list `List (Nat × System)` keyed by a numeric type id;
  `insert` keeps an existing entry, `erase(it)` removes the found entry.
* `std::cerr` diagnostics are returned as an explicit `List String`;
  operations that are undefined behavior in the source (`erase`/dereference
  of an end iterator in `RemoveSystem`/`GetSystem`) return `none`.
* Out-of-range `vector::operator[]` writes (undefined behavior in C++) are
  modelled by `List.set`, which is a no-op out of range; all registry call
  sites keep the index in range by resizing first, exactly as the source
  does.
* The unbounded id-search loop in `Registry::CreateEntity` (the `while` loop
  plus the recursive retry for pending-kill ids, which unrolled is: keep
  drawing ids until one is neither active nor pending-kill) is given as the
  fuelled `Registry.CreateEntityFuel`; `Registry.createMeasure` is an
  explicit bound on the number of draws, proved sufficient below, and
  `Registry.CreateEntity` runs the loop with that bound.
-/

set_option maxHeartbeats 1000000

abbrev Signature : Type := Finset (Fin 64)

/-- `class System` from ECS.hpp: a required-component signature plus the
member entity list (`std::vector<Entity>`). -/
structure System where
  componentSignature : Signature
  entities : List Nat
deriving DecidableEq

/-- `System::AddEntityToSystem`: `entities.push_back(entity)`. -/
def System.AddEntityToSystem (s : System) (entity : Nat) : System :=
  { s with entities := s.entities ++ [entity] }

/-- `System::RemoveEntityFromSystem`: `remove_if`/`erase` of every element
equal to `entity`. -/
def System.RemoveEntityFromSystem (s : System) (entity : Nat) : System :=
  { s with entities := s.entities.filter (fun other => entity != other) }

/-- `System::RequireComponent<T>`: `componentSignature.set(componentId)`. -/
def System.RequireComponent (s : System) (componentId : Fin 64) : System :=
  { s with componentSignature := insert componentId s.componentSignature }

/-- `std::vector<T>::resize(n)`: truncate to `n` elements or pad with
default-constructed values up to length exactly `n`. -/
def vectorResize {β : Type} (l : List β) (n : Nat) (d : β) : List β :=
  l.take n ++ List.replicate (n - l.length) d

/-- `class Pool<TComponent>` from Pool.hpp: a dense `std::vector` of
component values. -/
structure Pool (α : Type) where
  data : List α
deriving DecidableEq

/-- `Pool::Pool()`: the default constructor resizes `data` to 1000
default-constructed entries. -/
def Pool.create (α : Type) [Inhabited α] : Pool α :=
  ⟨List.replicate 1000 default⟩

/-- `Pool::GetSize`. -/
def Pool.GetSize {α : Type} (p : Pool α) : Nat := p.data.length

/-- `Pool::IsEmpty`. -/
def Pool.IsEmpty {α : Type} (p : Pool α) : Bool := p.data.isEmpty

/-- `Pool::Resize(n)`: `data.resize(n)`. -/
def Pool.Resize {α : Type} [Inhabited α] (p : Pool α) (n : Nat) : Pool α :=
  ⟨vectorResize p.data n default⟩

/-- `Pool::Clear`: `data.clear()`. -/
def Pool.Clear {α : Type} (p : Pool α) : Pool α := { p with data := [] }

/-- `Pool::Add`: `data.push_back(object)`. -/
def Pool.Add {α : Type} (p : Pool α) (object : α) : Pool α :=
  ⟨p.data ++ [object]⟩

/-- `Pool::Set(index, object)`: `data[index] = object` (in range at every
registry call site; out of range is undefined behavior in the source and a
no-op here). -/
def Pool.Set {α : Type} (p : Pool α) (index : Nat) (object : α) : Pool α :=
  ⟨p.data.set index object⟩

/-- `Pool::Get(index)`: returns the stored value at `index`. -/
def Pool.Get {α : Type} [Inhabited α] (p : Pool α) (index : Nat) : α :=
  p.data.getD index default

/-- `class Registry` from ECS.hpp, with the fields of the source in source
order. -/
structure Registry (α : Type) where
  numEntity : Nat
  componentsPools : List (Option (Pool α))
  entityComponentSignatures : List Signature
  systems : List (Nat × System)
  entitiesToBeAdded : Finset Nat
  entitiesToBeKilled : Finset Nat
  freeIds : List Nat
  activeEntityIds : Finset Nat
deriving DecidableEq

/-- A freshly constructed `Registry`: `numEntity = 0`, all containers
empty. -/
def registryInit : Registry Nat :=
  ⟨0, [], [], [], ∅, ∅, [], ∅⟩

/-- The signature stored for `entityId`
(`entityComponentSignatures[entityId]`; entries never written are the
default-constructed empty bitset). -/
def Registry.signatureOf {α : Type} (r : Registry α) (entityId : Nat) : Signature :=
  r.entityComponentSignatures.getD entityId ∅

/-- `Registry::AddEntityToSystems`: add `entity` to every system whose
required signature is contained in the entity's signature
(`(entitySig & sysSig) == sysSig`). -/
def Registry.AddEntityToSystems {α : Type} (r : Registry α) (entity : Nat) : Registry α :=
  { r with systems := r.systems.map (fun kv =>
      if kv.2.componentSignature ⊆ r.signatureOf entity
      then (kv.1, kv.2.AddEntityToSystem entity) else kv) }

/-- `Registry::RemoveEntityFromSystems`: remove `entity` from every
system. -/
def Registry.RemoveEntityFromSystems {α : Type} (r : Registry α) (entity : Nat) : Registry α :=
  { r with systems := r.systems.map (fun kv => (kv.1, kv.2.RemoveEntityFromSystem entity)) }

/-- `Registry::KillEntity`: if the id is not active, print an error to
`std::cerr` (returned as the diagnostic list) and change nothing; otherwise
remove the entity from all systems, reset its signature, and stage it in
`entitiesToBeKilled`. -/
def Registry.KillEntity {α : Type} (r : Registry α) (entity : Nat) :
    Registry α × List String :=
  if entity ∈ r.activeEntityIds then
    let r1 := r.RemoveEntityFromSystems entity
    ({ r1 with
        entityComponentSignatures := r1.entityComponentSignatures.set entity ∅,
        entitiesToBeKilled := insert entity r1.entitiesToBeKilled }, [])
  else
    (r, ["[ERROR] Attempting to kill non-existent entity: " ++ toString entity])

/-- In-order iteration of a `std::set<int>`/`std::set<Entity>`: the sorted
list of the elements of the `Finset`.  (Structurally recursive insertion
sort, so concrete runs evaluate; it agrees with any sorted enumeration.) -/
def sortedMembers (s : Finset Nat) : List Nat :=
  Quot.liftOn s.val (fun l => l.insertionSort (· ≤ ·)) (fun l1 l2 h =>
    List.eq_of_perm_of_sorted
      ((List.perm_insertionSort _ l1).trans
        (h.trans (List.perm_insertionSort _ l2).symm))
      (List.sorted_insertionSort _ l1) (List.sorted_insertionSort _ l2))

/-- Membership in the sorted iteration order is membership in the set. -/
lemma mem_sortedMembers {s : Finset Nat} {x : Nat} :
    x ∈ sortedMembers s ↔ x ∈ s := by
  rcases s with ⟨val, hnd⟩
  refine Quot.inductionOn val (fun l ↦ ?_) hnd
  intro _
  exact (List.perm_insertionSort _ l).mem_iff

/-- The sorted iteration of a `std::set` has no duplicates. -/
lemma nodup_sortedMembers (s : Finset Nat) : (sortedMembers s).Nodup := by
  rcases s with ⟨val, hnd⟩
  refine Quot.inductionOn val (fun l hl ↦ ?_) hnd
  exact (List.perm_insertionSort _ l).nodup_iff.mpr hl

/-- The body of the second loop of `Registry::Update`, applied to one
pending-kill entity: remove from all systems, reset the signature, erase
from the active-id set, push the id onto the back of `freeIds`. -/
def Registry.updateKillStep {α : Type} (r : Registry α) (entity : Nat) : Registry α :=
  let r1 := r.RemoveEntityFromSystems entity
  { r1 with
      entityComponentSignatures := r1.entityComponentSignatures.set entity ∅,
      activeEntityIds := r1.activeEntityIds.erase entity,
      freeIds := r1.freeIds ++ [entity] }

/-- `Registry::Update`: reconcile `entitiesToBeAdded` into the systems and
then retire `entitiesToBeKilled`.  Both `std::set`s iterate in increasing id
order, modelled by `Finset.sort`. -/
def Registry.Update {α : Type} (r : Registry α) : Registry α :=
  let afterAdd :=
    ((sortedMembers r.entitiesToBeAdded).foldl Registry.AddEntityToSystems r)
  let afterAdd2 := { afterAdd with entitiesToBeAdded := ∅ }
  let afterKill :=
    ((sortedMembers afterAdd2.entitiesToBeKilled).foldl Registry.updateKillStep afterAdd2)
  { afterKill with entitiesToBeKilled := ∅ }

/-- The body of the loop of `Registry::ClearAllEntities` for one active id:
remove from all systems, reset the signature, push the id onto `freeIds`
(the active set is cleared once, after the loop). -/
def Registry.clearStep {α : Type} (r : Registry α) (entityId : Nat) : Registry α :=
  let r1 := r.RemoveEntityFromSystems entityId
  { r1 with
      entityComponentSignatures := r1.entityComponentSignatures.set entityId ∅,
      freeIds := r1.freeIds ++ [entityId] }

/-- `Registry::ClearAllEntities`: free every active id immediately.  Note
that the source clears neither `entitiesToBeAdded` nor
`entitiesToBeKilled`. -/
def Registry.ClearAllEntities {α : Type} (r : Registry α) : Registry α :=
  let r1 := ((sortedMembers r.activeEntityIds).foldl Registry.clearStep r)
  { r1 with activeEntityIds := ∅ }

/-- `Registry::AddComponent<T>(entity, args...)`: grow the pool collection
if the component id is out of range, lazily create the pool, grow the pool
to `numEntity + 100` if the entity id is out of range, construct the value
in place, and set the signature bit. -/
def Registry.AddComponent {α : Type} [Inhabited α] (r : Registry α)
    (componentId : Fin 64) (entity : Nat) (value : α) : Registry α :=
  let pools0 :=
    if r.componentsPools.length ≤ componentId.val
    then vectorResize r.componentsPools (componentId.val + 10) none
    else r.componentsPools
  let pools1 :=
    if (pools0.getD componentId.val none).isNone
    then pools0.set componentId.val (some (Pool.create α))
    else pools0
  let pool := (pools1.getD componentId.val none).getD (Pool.create α)
  let pool1 := if pool.GetSize ≤ entity then pool.Resize (r.numEntity + 100) else pool
  let pool2 := pool1.Set entity value
  { r with
      componentsPools := pools1.set componentId.val (some pool2),
      entityComponentSignatures := r.entityComponentSignatures.set entity
        (insert componentId (r.signatureOf entity)) }

/-- `Registry::RemoveComponent<T>(entity)`:
`entityComponentSignatures[entityId].set(componentId, false)` — nothing
else is touched. -/
def Registry.RemoveComponent {α : Type} (r : Registry α)
    (componentId : Fin 64) (entity : Nat) : Registry α :=
  { r with
      entityComponentSignatures := r.entityComponentSignatures.set entity
        ((r.signatureOf entity).erase componentId) }

/-- `Registry::HasComponent<T>(entity)`:
`entityComponentSignatures[entityId].test(componentId)`. -/
def Registry.HasComponent {α : Type} (r : Registry α)
    (componentId : Fin 64) (entity : Nat) : Bool :=
  decide (componentId ∈ r.signatureOf entity)

/-- `Registry::AddSystem<T>(args...)`: construct the system, then
`systems.insert(...)` — `std::unordered_map::insert` keeps an existing
entry for the key and discards the new one. -/
def Registry.AddSystem {α : Type} (r : Registry α)
    (typeId : Nat) (newSystem : System) : Registry α :=
  if (r.systems.lookup typeId).isSome then r
  else { r with systems := r.systems ++ [(typeId, newSystem)] }

/-- `Registry::HasSystem<T>`: `systems.find(...) != systems.end()`. -/
def Registry.HasSystem {α : Type} (r : Registry α) (typeId : Nat) : Bool :=
  (r.systems.lookup typeId).isSome

/-- `Registry::RemoveSystem<T>`: `systems.erase(systems.find(...))`.  When
the type is not registered, `find` yields the end iterator and `erase` on it
is undefined behavior in C++ — modelled as `none`.  No diagnostic is ever
produced. -/
def Registry.RemoveSystem {α : Type} (r : Registry α) (typeId : Nat) :
    Option (Registry α) :=
  if (r.systems.lookup typeId).isSome
  then some { r with systems := r.systems.eraseP (fun kv => kv.1 == typeId) }
  else none

/-- `Registry::GetSystem<T>`: dereference of `systems.find(...)`.  When the
type is not registered this dereferences the end iterator — undefined
behavior in C++ — modelled as `none`.  No diagnostic is ever produced. -/
def Registry.GetSystem {α : Type} (r : Registry α) (typeId : Nat) : Option System :=
  r.systems.lookup typeId

/-- One id draw of `Registry::CreateEntity`: take the front of `freeIds`,
or, when the queue is empty, the next fresh id `numEntity++`, growing the
signature table to `entityId + 100` when the fresh id is out of range. -/
def Registry.createDraw {α : Type} (r : Registry α) : Nat × Registry α :=
  match r.freeIds with
  | [] =>
      let entityId := r.numEntity
      let sigs :=
        if r.entityComponentSignatures.length ≤ entityId
        then vectorResize r.entityComponentSignatures (entityId + 100) ∅
        else r.entityComponentSignatures
      (entityId, { r with numEntity := entityId + 1, entityComponentSignatures := sigs })
  | front :: rest => (front, { r with freeIds := rest })

/-- The successful tail of `Registry::CreateEntity`: stage the entity in
`entitiesToBeAdded` and mark the id active. -/
def Registry.createFinalize {α : Type} (r : Registry α) (entityId : Nat) : Registry α :=
  { r with
      entitiesToBeAdded := insert entityId r.entitiesToBeAdded,
      activeEntityIds := insert entityId r.activeEntityIds }

/-- The id-search loop of `Registry::CreateEntity` with explicit fuel: the
source's `while` loop redraws while the drawn id is still active, and the
recursive retry redraws when the drawn id is staged pending-kill; unrolled,
both redraw until an id is neither active nor pending-kill. -/
def Registry.CreateEntityFuel {α : Type} : Nat → Registry α → Option (Nat × Registry α)
  | 0, _ => none
  | fuel + 1, r =>
      if r.createDraw.1 ∈ r.createDraw.2.activeEntityIds then
        Registry.CreateEntityFuel fuel r.createDraw.2
      else if r.createDraw.1 ∈ r.createDraw.2.entitiesToBeKilled then
        Registry.CreateEntityFuel fuel r.createDraw.2
      else
        some (r.createDraw.1, r.createDraw.2.createFinalize r.createDraw.1)

/-- Bound on the number of draws `Registry::CreateEntity` can make from a
given state: every draw either shortens `freeIds` or moves the fresh-id
counter past one more of the finitely many active or pending-kill ids at or
above it. -/
def Registry.createMeasure {α : Type} (r : Registry α) : Nat :=
  r.freeIds.length +
    ((r.activeEntityIds ∪ r.entitiesToBeKilled).filter
      (fun x => r.numEntity ≤ x)).card

/-- `Registry::CreateEntity`, run with sufficient fuel (sufficiency is
proved below; the default is never reached). -/
def Registry.CreateEntity {α : Type} (r : Registry α) : Nat × Registry α :=
  (Registry.CreateEntityFuel (r.createMeasure + 1) r).getD (0, r)

/-! ### List and resize helper lemmas -/

/-- `getD` after `set` at the same index. -/
lemma list_getD_set_self {β : Type} (l : List β) (n : Nat) (a d : β) :
    (l.set n a).getD n d = if n < l.length then a else d := by
  rcases Nat.lt_or_ge n l.length with h | h
  · rw [List.getD_eq_getElem?_getD, List.getElem?_set_self h]
    simp [h]
  · rw [List.getD_eq_getElem?_getD, List.getElem?_eq_none (by simpa using h)]
    simp [Nat.not_lt.mpr h]

/-- `getD` after `set` at a different index. -/
lemma list_getD_set_ne {β : Type} (l : List β) (m n : Nat) (a d : β)
    (h : n ≠ m) : (l.set n a).getD m d = l.getD m d := by
  rw [List.getD_eq_getElem?_getD, List.getElem?_set_ne h,
    ← List.getD_eq_getElem?_getD]

/-- `vector::resize(n)` yields length exactly `n`. -/
lemma vectorResize_length {β : Type} (l : List β) (n : Nat) (d : β) :
    (vectorResize l n d).length = n := by
  simp only [vectorResize, List.length_append, List.length_take,
    List.length_replicate]
  omega

/-- A growing `vector::resize` preserves the stored entries. -/
lemma vectorResize_getD_lt {β : Type} (l : List β) (n : Nat) (d : β) (i : Nat)
    (hlen : l.length ≤ n) (hi : i < l.length) :
    (vectorResize l n d).getD i d = l.getD i d := by
  rw [vectorResize, List.take_of_length_le hlen, List.getD_append _ _ _ _ hi]

/-- A key whose lookup fails is not among the association-list keys. -/
lemma lookup_isSome_eq_false_not_mem_keys {β : Type} (l : List (Nat × β))
    (t : Nat) (h : (l.lookup t).isSome = false) : t ∉ l.map Prod.fst := by
  induction l with
  | nil => simp
  | cons a l ih =>
      obtain ⟨k, b⟩ := a
      rw [List.lookup_cons] at h
      rcases hb : (t == k) with hf | ht
      · rw [hb] at h
        simp only [List.map_cons, List.mem_cons]
        rintro (rfl | hmem)
        · exact absurd rfl (beq_eq_false_iff_ne.mp hb)
        · exact ih h hmem
      · rw [hb] at h
        simp at h

/-! ### Claim C7 : Pool::Resize -/

/-- Claim C7 counterexample: `Pool::Resize` is `data.resize(n)`, which
shrinks the backing vector when `n` is below the current size and destroys
the trailing entries: resizing a pool of size 2 to 1 yields size 1 and loses
the entry at index 1. -/
theorem pool_resize_shrinks_counterexample :
    ((Pool.mk [5, 7] : Pool Nat).Resize 1).GetSize
        < (Pool.mk [5, 7] : Pool Nat).GetSize ∧
    ((Pool.mk [5, 7] : Pool Nat).Resize 1).Get 1
        ≠ (Pool.mk [5, 7] : Pool Nat).Get 1 := by
  decide

/-- Claim C7 (amended): `Pool::Resize(n)` sets the size to exactly `n`; when
`n` is at least the current size (which is how the registry always calls
it), the pool grows and every previously stored entry is preserved.  For
`n` below the current size the vector shrinks, contrary to the original
claim. -/
theorem pool_resize_grows (α : Type) [Inhabited α] (p : Pool α) (n : Nat)
    (h : p.GetSize ≤ n) :
    (p.Resize n).GetSize = n ∧
    p.GetSize ≤ (p.Resize n).GetSize ∧
    ∀ i, i < p.GetSize → (p.Resize n).Get i = p.Get i := by
  have hlen : (p.Resize n).GetSize = n := by
    simp [Pool.Resize, Pool.GetSize, vectorResize_length]
  refine ⟨hlen, by rw [hlen]; exact h, ?_⟩
  intro i hi
  simp only [Pool.Resize, Pool.Get]
  exact vectorResize_getD_lt p.data n default i h hi

/-- Witness for Claim C7 (amended) at a concrete pool and size. -/
theorem pool_resize_grows_witness :
    (Pool.mk [5, 7] : Pool Nat).GetSize ≤ 3 ∧
    (((Pool.mk [5, 7] : Pool Nat).Resize 3).GetSize = 3 ∧
      (Pool.mk [5, 7] : Pool Nat).GetSize
          ≤ ((Pool.mk [5, 7] : Pool Nat).Resize 3).GetSize ∧
      ∀ i, i < (Pool.mk [5, 7] : Pool Nat).GetSize →
        ((Pool.mk [5, 7] : Pool Nat).Resize 3).Get i
            = (Pool.mk [5, 7] : Pool Nat).Get i) :=
  ⟨by decide, pool_resize_grows Nat (Pool.mk [5, 7]) 3 (by decide)⟩

/-! ### Claim C2 : misuse semantics -/

/-- Claim C2 (amended): `KillEntity` on a non-active id emits the error
diagnostic and leaves the registry unchanged; but `RemoveSystem` and
`GetSystem` on an unregistered system type emit no diagnostic and invoke
undefined behavior (`erase`/dereference of the end iterator, modelled as
`none`) instead of returning with the registry unchanged. -/
theorem misuse_semantics (α : Type) (r : Registry α) (entity typeId : Nat)
    (hkill : entity ∉ r.activeEntityIds) (hsys : r.HasSystem typeId = false) :
    r.KillEntity entity =
      (r, ["[ERROR] Attempting to kill non-existent entity: " ++ toString entity]) ∧
    r.RemoveSystem typeId = none ∧
    r.GetSystem typeId = none := by
  have hlook : (r.systems.lookup typeId).isSome = false := hsys
  refine ⟨?_, ?_, ?_⟩
  · rw [Registry.KillEntity, if_neg hkill]
  · rw [Registry.RemoveSystem, if_neg (by simp [hlook])]
  · rw [Registry.GetSystem]
    exact Option.not_isSome_iff_eq_none.mp (by simp [hlook])

/-- Claim C2 counterexample: removing a system type that was never
registered does not report-and-return — it is `systems.erase` on the end
iterator, undefined behavior, with no diagnostic anywhere in
`Registry::RemoveSystem`. -/
theorem misuse_semantics_counterexample : registryInit.RemoveSystem 0 = none := rfl

/-- Witness for Claim C2 (amended) at the freshly constructed registry. -/
theorem misuse_semantics_witness :
    5 ∉ registryInit.activeEntityIds ∧
    registryInit.HasSystem 1 = false ∧
    (registryInit.KillEntity 5 =
      (registryInit, ["[ERROR] Attempting to kill non-existent entity: " ++ toString 5]) ∧
     registryInit.RemoveSystem 1 = none ∧
     registryInit.GetSystem 1 = none) :=
  ⟨by decide, by rfl, misuse_semantics Nat registryInit 5 1 (by decide) (by rfl)⟩

/-! ### Claim C9 : RemoveComponent -/

/-- Claim C9: `RemoveComponent<T>(entity)` clears exactly the signature bit
of `T` for `entity` and changes nothing else: the signature of every other
entity, presence of every other component, every pool (including the slot of
`T` for `entity`), the system map, the staging sets, the free-id queue, the
active-id set and the entity counter are all unchanged. -/
theorem removeComponent_clears_only_bit (α : Type) (r : Registry α)
    (componentId componentId2 : Fin 64) (entity entity2 : Nat)
    (hne : entity2 ≠ entity) (hcne : componentId2 ≠ componentId) :
    (r.RemoveComponent componentId entity).signatureOf entity
        = (r.signatureOf entity).erase componentId ∧
    componentId ∉ (r.RemoveComponent componentId entity).signatureOf entity ∧
    (r.RemoveComponent componentId entity).signatureOf entity2
        = r.signatureOf entity2 ∧
    (r.RemoveComponent componentId entity).HasComponent componentId2 entity
        = r.HasComponent componentId2 entity ∧
    (r.RemoveComponent componentId entity).componentsPools = r.componentsPools ∧
    (r.RemoveComponent componentId entity).activeEntityIds = r.activeEntityIds ∧
    (r.RemoveComponent componentId entity).freeIds = r.freeIds ∧
    (r.RemoveComponent componentId entity).systems = r.systems ∧
    (r.RemoveComponent componentId entity).entitiesToBeAdded = r.entitiesToBeAdded ∧
    (r.RemoveComponent componentId entity).entitiesToBeKilled = r.entitiesToBeKilled ∧
    (r.RemoveComponent componentId entity).numEntity = r.numEntity := by
  have hself : (r.RemoveComponent componentId entity).signatureOf entity
      = (r.signatureOf entity).erase componentId := by
    simp only [Registry.RemoveComponent, Registry.signatureOf]
    rw [list_getD_set_self]
    split
    · rfl
    · rename_i hout
      rw [List.getD_eq_default _ _ (Nat.le_of_not_lt hout), Finset.erase_empty]
  refine ⟨hself, ?_, ?_, ?_, rfl, rfl, rfl, rfl, rfl, rfl, rfl⟩
  · rw [hself]
    exact Finset.not_mem_erase componentId _
  · simp only [Registry.RemoveComponent, Registry.signatureOf]
    exact list_getD_set_ne _ _ _ _ _ (fun hx => hne hx.symm)
  · simp only [Registry.HasComponent]
    rw [hself]
    exact decide_eq_decide.mpr
      ⟨fun hx => (Finset.mem_erase.mp hx).2, fun hx => Finset.mem_erase.mpr ⟨hcne, hx⟩⟩

/-- Witness for Claim C9 at a concrete registry, entity and component
ids. -/
theorem removeComponent_clears_only_bit_witness :
    (1 : Nat) ≠ (0 : Nat) ∧ (1 : Fin 64) ≠ (0 : Fin 64) ∧
    ((registryInit.RemoveComponent 0 0).signatureOf 0
        = (registryInit.signatureOf 0).erase 0 ∧
     (0 : Fin 64) ∉ (registryInit.RemoveComponent 0 0).signatureOf 0 ∧
     (registryInit.RemoveComponent 0 0).signatureOf 1 = registryInit.signatureOf 1 ∧
     (registryInit.RemoveComponent 0 0).HasComponent 1 0
        = registryInit.HasComponent 1 0 ∧
     (registryInit.RemoveComponent 0 0).componentsPools = registryInit.componentsPools ∧
     (registryInit.RemoveComponent 0 0).activeEntityIds = registryInit.activeEntityIds ∧
     (registryInit.RemoveComponent 0 0).freeIds = registryInit.freeIds ∧
     (registryInit.RemoveComponent 0 0).systems = registryInit.systems ∧
     (registryInit.RemoveComponent 0 0).entitiesToBeAdded = registryInit.entitiesToBeAdded ∧
     (registryInit.RemoveComponent 0 0).entitiesToBeKilled = registryInit.entitiesToBeKilled ∧
     (registryInit.RemoveComponent 0 0).numEntity = registryInit.numEntity) :=
  ⟨by decide, by decide,
    removeComponent_clears_only_bit Nat registryInit 0 1 0 1 (by decide) (by decide)⟩

/-! ### Claim C10 : AddSystem keeps the original instance -/

/-- Claim C10: when a system of the same type is already registered,
`AddSystem` leaves the registry unchanged (the freshly constructed instance
is discarded by `unordered_map::insert`), no diagnostic is produced, and the
system-type keys stay duplicate-free, so at most one instance per type is
ever registered. -/
theorem addSystem_keeps_existing (α : Type) (r : Registry α)
    (typeId typeId2 : Nat) (newSystem newSystem2 : System)
    (h : r.HasSystem typeId = true) :
    r.AddSystem typeId newSystem = r ∧
    (r.AddSystem typeId newSystem).GetSystem typeId = r.GetSystem typeId ∧
    ((r.systems.map Prod.fst).Nodup →
      ((r.AddSystem typeId2 newSystem2).systems.map Prod.fst).Nodup) := by
  have h1 : r.AddSystem typeId newSystem = r := by
    have hp : (r.systems.lookup typeId).isSome = true := h
    rw [Registry.AddSystem, if_pos hp]
  refine ⟨h1, by rw [h1], ?_⟩
  intro hnd
  rw [Registry.AddSystem]
  by_cases h2 : (r.systems.lookup typeId2).isSome = true
  · rw [if_pos h2]
    exact hnd
  · rw [if_neg h2]
    have h3 : typeId2 ∉ r.systems.map Prod.fst :=
      lookup_isSome_eq_false_not_mem_keys _ _ (Bool.eq_false_iff.mpr h2)
    simp only [List.map_append, List.map_cons, List.map_nil, List.nodup_append]
    exact ⟨hnd, List.nodup_singleton _, List.disjoint_singleton.mpr h3⟩

/-- Witness for Claim C10 at a registry holding one registered system. -/
theorem addSystem_keeps_existing_witness :
    (registryInit.AddSystem 3 (System.mk ∅ [])).HasSystem 3 = true ∧
    ((registryInit.AddSystem 3 (System.mk ∅ [])).AddSystem 3 (System.mk ∅ [7])
        = registryInit.AddSystem 3 (System.mk ∅ []) ∧
     ((registryInit.AddSystem 3 (System.mk ∅ [])).AddSystem 3 (System.mk ∅ [7])).GetSystem 3
        = (registryInit.AddSystem 3 (System.mk ∅ [])).GetSystem 3 ∧
     (((registryInit.AddSystem 3 (System.mk ∅ [])).systems.map Prod.fst).Nodup →
       (((registryInit.AddSystem 3 (System.mk ∅ [])).AddSystem 4 (System.mk ∅ [])).systems.map
          Prod.fst).Nodup)) :=
  ⟨by rfl,
    addSystem_keeps_existing Nat (registryInit.AddSystem 3 (System.mk ∅ []))
      3 4 (System.mk ∅ [7]) (System.mk ∅ []) (by rfl)⟩

/-! ### CreateEntity : termination and characterization -/

/-- Each redraw of the id-search loop of `CreateEntity` strictly decreases
`createMeasure`: a pop shortens `freeIds`, and a fresh draw that has to be
retried moves the counter past one of the finitely many active or
pending-kill ids at or above it. -/
lemma createDraw_measure_lt {α : Type} (r : Registry α)
    (h : r.createDraw.1 ∈ r.createDraw.2.activeEntityIds ∨
         r.createDraw.1 ∈ r.createDraw.2.entitiesToBeKilled) :
    r.createDraw.2.createMeasure < r.createMeasure := by
  rcases hf : r.freeIds with _ | ⟨front, rest⟩
  · simp only [Registry.createDraw, hf] at h ⊢
    simp only [Registry.createMeasure, hf, List.length_nil, Nat.zero_add]
    apply Finset.card_lt_card
    rw [Finset.ssubset_def]
    constructor
    · intro x hx
      rcases Finset.mem_filter.mp hx with ⟨hxs, hxl⟩
      exact Finset.mem_filter.mpr ⟨hxs, by omega⟩
    · intro hsub
      have hmem : r.numEntity ∈
          (r.activeEntityIds ∪ r.entitiesToBeKilled).filter
            (fun x => r.numEntity ≤ x) := by
        refine Finset.mem_filter.mpr ⟨?_, Nat.le_refl _⟩
        rcases h with h | h
        · exact Finset.mem_union_left _ h
        · exact Finset.mem_union_right _ h
      have := Finset.mem_filter.mp (hsub hmem)
      omega
  · simp only [Registry.createDraw, hf]
    simp only [Registry.createMeasure, hf, List.length_cons]
    omega

/-- With fuel strictly above `createMeasure`, the id-search loop of
`CreateEntity` returns. -/
lemma createEntityFuel_isSome {α : Type} :
    ∀ (fuel : Nat) (r : Registry α), r.createMeasure < fuel →
      (Registry.CreateEntityFuel fuel r).isSome = true := by
  intro fuel
  induction fuel with
  | zero => intro r hr; omega
  | succ fuel ih =>
      intro r hr
      rw [Registry.CreateEntityFuel]
      by_cases h1 : r.createDraw.1 ∈ r.createDraw.2.activeEntityIds
      · rw [if_pos h1]
        exact ih _ (by have := createDraw_measure_lt r (Or.inl h1); omega)
      · rw [if_neg h1]
        by_cases h2 : r.createDraw.1 ∈ r.createDraw.2.entitiesToBeKilled
        · rw [if_pos h2]
          exact ih _ (by have := createDraw_measure_lt r (Or.inr h2); omega)
        · rw [if_neg h2]
          rfl

/-- One draw of `CreateEntity` changes only `freeIds`, `numEntity` and the
signature table: the staging sets, the systems and the active set are
untouched, the counter never decreases, and the remaining queue is a suffix
of the original. -/
lemma createDraw_fields {α : Type} (r : Registry α) :
    r.createDraw.2.activeEntityIds = r.activeEntityIds ∧
    r.createDraw.2.entitiesToBeKilled = r.entitiesToBeKilled ∧
    r.createDraw.2.entitiesToBeAdded = r.entitiesToBeAdded ∧
    r.createDraw.2.systems = r.systems ∧
    r.numEntity ≤ r.createDraw.2.numEntity ∧
    ((r.freeIds = r.createDraw.1 :: r.createDraw.2.freeIds) ∨
     (r.freeIds = [] ∧ r.createDraw.2.freeIds = [] ∧
      r.createDraw.1 = r.numEntity ∧
      r.createDraw.2.numEntity = r.numEntity + 1)) := by
  rcases hf : r.freeIds with _ | ⟨front, rest⟩ <;>
    simp [Registry.createDraw, hf]

/-- Characterization of a successful run of the id-search loop of
`CreateEntity`: the returned id was neither active nor pending-kill, it is
marked active and staged for addition, the staging/kill/system state is
otherwise untouched, the remaining free queue is a suffix of the original,
and (when the original queue had no duplicates) the returned id is no longer
in it. -/
lemma createEntityFuel_spec {α : Type} :
    ∀ (fuel : Nat) (r : Registry α) (entityId : Nat) (r' : Registry α),
      Registry.CreateEntityFuel fuel r = some (entityId, r') →
      entityId ∉ r.activeEntityIds ∧
      entityId ∉ r.entitiesToBeKilled ∧
      r'.activeEntityIds = insert entityId r.activeEntityIds ∧
      r'.entitiesToBeAdded = insert entityId r.entitiesToBeAdded ∧
      r'.entitiesToBeKilled = r.entitiesToBeKilled ∧
      r'.systems = r.systems ∧
      r.numEntity ≤ r'.numEntity ∧
      (∃ k, r'.freeIds = r.freeIds.drop k) ∧
      (entityId ∈ r.freeIds ∨ entityId < r'.numEntity) ∧
      (r.freeIds.Nodup → entityId ∉ r'.freeIds) := by
  intro fuel
  induction fuel with
  | zero => intro r entityId r' h; exact absurd h (by simp [Registry.CreateEntityFuel])
  | succ fuel ih =>
      intro r entityId r' h
      rw [Registry.CreateEntityFuel] at h
      obtain ⟨hAct, hKil, hAdd, hSys, hNum, hQueue⟩ := createDraw_fields r
      by_cases h1 : r.createDraw.1 ∈ r.createDraw.2.activeEntityIds
      · rw [if_pos h1] at h
        obtain ⟨i1, i2, i3, i4, i5, i6, i7, ⟨k, hk⟩, i9, i10⟩ := ih _ _ _ h
        rcases hQueue with hcons | ⟨hnil, hnil2, _, _⟩
        · refine ⟨by rwa [hAct] at i1, by rwa [hKil] at i2,
            by rw [i3, hAct], by rw [i4, hAdd], by rw [i5, hKil],
            by rw [i6, hSys], Nat.le_trans hNum i7, ⟨k + 1, ?_⟩, ?_, ?_⟩
          · rw [hk, hcons]
            rfl
          · rcases i9 with i9 | i9
            · exact Or.inl (by rw [hcons]; exact List.mem_cons_of_mem _ i9)
            · exact Or.inr i9
          · intro hnd
            exact i10 (by rw [hcons] at hnd; exact hnd.of_cons)
        · refine ⟨by rwa [hAct] at i1, by rwa [hKil] at i2,
            by rw [i3, hAct], by rw [i4, hAdd], by rw [i5, hKil],
            by rw [i6, hSys], Nat.le_trans hNum i7, ⟨0, ?_⟩, ?_, ?_⟩
          · rw [hk, hnil2, hnil]
            simp
          · rcases i9 with i9 | i9
            · rw [hnil2] at i9
              exact absurd i9 (List.not_mem_nil _)
            · exact Or.inr i9
          · intro _
            exact i10 (by rw [hnil2]; exact List.nodup_nil)
      · rw [if_neg h1] at h
        by_cases h2 : r.createDraw.1 ∈ r.createDraw.2.entitiesToBeKilled
        · rw [if_pos h2] at h
          obtain ⟨i1, i2, i3, i4, i5, i6, i7, ⟨k, hk⟩, i9, i10⟩ := ih _ _ _ h
          rcases hQueue with hcons | ⟨hnil, hnil2, _, _⟩
          · refine ⟨by rwa [hAct] at i1, by rwa [hKil] at i2,
              by rw [i3, hAct], by rw [i4, hAdd], by rw [i5, hKil],
              by rw [i6, hSys], Nat.le_trans hNum i7, ⟨k + 1, ?_⟩, ?_, ?_⟩
            · rw [hk, hcons]
              rfl
            · rcases i9 with i9 | i9
              · exact Or.inl (by rw [hcons]; exact List.mem_cons_of_mem _ i9)
              · exact Or.inr i9
            · intro hnd
              exact i10 (by rw [hcons] at hnd; exact hnd.of_cons)
          · refine ⟨by rwa [hAct] at i1, by rwa [hKil] at i2,
              by rw [i3, hAct], by rw [i4, hAdd], by rw [i5, hKil],
              by rw [i6, hSys], Nat.le_trans hNum i7, ⟨0, ?_⟩, ?_, ?_⟩
            · rw [hk, hnil2, hnil]
              simp
            · rcases i9 with i9 | i9
              · rw [hnil2] at i9
                exact absurd i9 (List.not_mem_nil _)
              · exact Or.inr i9
            · intro _
              exact i10 (by rw [hnil2]; exact List.nodup_nil)
        · rw [if_neg h2] at h
          have hinj := Option.some.inj h
          have hid : r.createDraw.1 = entityId := congrArg Prod.fst hinj
          have hr' : r' = r.createDraw.2.createFinalize r.createDraw.1 :=
            (congrArg Prod.snd hinj).symm
          subst hid
          have hFin1 : r'.activeEntityIds =
              insert r.createDraw.1 r.createDraw.2.activeEntityIds := by
            rw [hr']; rfl
          have hFin2 : r'.entitiesToBeAdded =
              insert r.createDraw.1 r.createDraw.2.entitiesToBeAdded := by
            rw [hr']; rfl
          have hFin3 : r'.entitiesToBeKilled = r.createDraw.2.entitiesToBeKilled := by
            rw [hr']; rfl
          have hFin4 : r'.systems = r.createDraw.2.systems := by
            rw [hr']; rfl
          have hFin5 : r'.numEntity = r.createDraw.2.numEntity := by
            rw [hr']; rfl
          have hFin6 : r'.freeIds = r.createDraw.2.freeIds := by
            rw [hr']; rfl
          refine ⟨by rwa [hAct] at h1, by rwa [hKil] at h2,
            by rw [hFin1, hAct], by rw [hFin2, hAdd], by rw [hFin3, hKil],
            by rw [hFin4, hSys], by rw [hFin5]; exact hNum, ?_, ?_, ?_⟩
          · rcases hQueue with hcons | ⟨hnil, hnil2, _, _⟩
            · exact ⟨1, by rw [hFin6, hcons]; rfl⟩
            · exact ⟨0, by rw [hFin6, hnil2, hnil]; simp⟩
          · rcases hQueue with hcons | ⟨hnil, hnil2, hfresh, hfresh2⟩
            · exact Or.inl (by rw [hcons]; exact List.mem_cons_self _ _)
            · exact Or.inr (by rw [hFin5, hfresh2, hfresh]; exact Nat.lt_succ_self _)
          · intro hnd
            rcases hQueue with hcons | ⟨hnil, hnil2, _, _⟩
            · rw [hFin6]
              rw [hcons] at hnd
              exact (List.nodup_cons.mp hnd).1
            · rw [hFin6, hnil2]
              exact List.not_mem_nil _

/-- `Registry.CreateEntity` is exactly the fuelled loop run with the
sufficient fuel bound. -/
lemma createEntity_run {α : Type} (r : Registry α) :
    Registry.CreateEntityFuel (r.createMeasure + 1) r
      = some ((r.CreateEntity).1, (r.CreateEntity).2) := by
  have hs := createEntityFuel_isSome (r.createMeasure + 1) r (Nat.lt_succ_self _)
  rcases Option.isSome_iff_exists.mp hs with ⟨p, hp⟩
  rw [Registry.CreateEntity, hp]
  rfl

/-- The characterization of `createEntityFuel_spec`, restated for
`Registry.CreateEntity`. -/
lemma createEntity_spec {α : Type} (r : Registry α) :
    (r.CreateEntity).1 ∉ r.activeEntityIds ∧
    (r.CreateEntity).1 ∉ r.entitiesToBeKilled ∧
    (r.CreateEntity).2.activeEntityIds = insert (r.CreateEntity).1 r.activeEntityIds ∧
    (r.CreateEntity).2.entitiesToBeAdded = insert (r.CreateEntity).1 r.entitiesToBeAdded ∧
    (r.CreateEntity).2.entitiesToBeKilled = r.entitiesToBeKilled ∧
    (r.CreateEntity).2.systems = r.systems ∧
    r.numEntity ≤ (r.CreateEntity).2.numEntity ∧
    (∃ k, (r.CreateEntity).2.freeIds = r.freeIds.drop k) ∧
    ((r.CreateEntity).1 ∈ r.freeIds ∨ (r.CreateEntity).1 < (r.CreateEntity).2.numEntity) ∧
    (r.freeIds.Nodup → (r.CreateEntity).1 ∉ (r.CreateEntity).2.freeIds) :=
  createEntityFuel_spec _ r _ _ (createEntity_run r)

/-! ### Claim C8 : CreateEntity terminates -/

/-- Claim C8: `Registry::CreateEntity` terminates from every registry state
— even pathological free-list states.  The id-search loop (the `while` loop
skipping still-active ids together with the recursive retry for pending-kill
ids) returns after at most `createMeasure + 1` draws: running the faithful
fuelled loop with that explicit bound always yields a result. -/
theorem createEntity_terminates (α : Type) (r : Registry α) :
    (Registry.CreateEntityFuel (r.createMeasure + 1) r).isSome = true :=
  createEntityFuel_isSome _ r (Nat.lt_succ_self _)

/-! ### Claim C3 : CreateEntity never returns an active id -/

/-- Claim C3: for every registry state — including ones whose free-id queue
holds duplicates or already-active ids — `CreateEntity` returns an id that
was not in the active-id set at the moment of return, and the active-id set
(a mathematical set, so ids are never duplicated among active entities)
afterwards is exactly the old one plus the new id. -/
theorem createEntity_returns_inactive_id (α : Type) (r : Registry α) :
    (r.CreateEntity).1 ∉ r.activeEntityIds ∧
    (r.CreateEntity).2.activeEntityIds
        = insert (r.CreateEntity).1 r.activeEntityIds :=
  ⟨(createEntity_spec r).1, (createEntity_spec r).2.2.1⟩

/-! ### Claim C5 : no id reuse while pending-kill, reuse after Update -/

/-- Claim C5: after `KillEntity e` on an active entity and before the next
`Update`, any `CreateEntity` returns an id different from `e` (and `e` stays
in the active set, so this persists across further creates in the frame);
and after the next `Update` runs, `CreateEntity` may legally return `e`'s id
again, as the concrete run create–kill–update–create shows. -/
theorem kill_blocks_reuse_until_update :
    (∀ (α : Type) (r : Registry α) (e : Nat), e ∈ r.activeEntityIds →
      (((r.KillEntity e).1).CreateEntity).1 ≠ e ∧
      e ∈ (((r.KillEntity e).1).CreateEntity).2.activeEntityIds) ∧
    ((((((registryInit.CreateEntity).2).KillEntity 0).1).Update).CreateEntity).1 = 0 := by
  constructor
  · intro α r e he
    have hact : ((r.KillEntity e).1).activeEntityIds = r.activeEntityIds := by
      rw [Registry.KillEntity, if_pos he]
      rfl
    have h1 := (createEntity_spec ((r.KillEntity e).1)).1
    have h2 := (createEntity_spec ((r.KillEntity e).1)).2.2.1
    rw [hact] at h1 h2
    refine ⟨fun hEq => h1 (by rw [hEq]; exact he), ?_⟩
    rw [h2]
    exact Finset.mem_insert_of_mem he
  · decide

/-- Witness for the hypothesis of Claim C5 at a concrete registry holding
one active entity. -/
theorem kill_blocks_reuse_witness :
    0 ∈ ((registryInit.CreateEntity).2).activeEntityIds ∧
    (((((registryInit.CreateEntity).2).KillEntity 0).1).CreateEntity).1 ≠ 0 ∧
    0 ∈ (((((registryInit.CreateEntity).2).KillEntity 0).1).CreateEntity).2.activeEntityIds :=
  ⟨by decide,
    (kill_blocks_reuse_until_update.1 Nat ((registryInit.CreateEntity).2) 0 (by decide)).1,
    (kill_blocks_reuse_until_update.1 Nat ((registryInit.CreateEntity).2) 0 (by decide)).2⟩

/-! ### Claim C6 : KillEntity isolates immediately -/

/-- Claim C6: immediately after `KillEntity e` on an active entity and
before the next `Update`, `e` is absent from every registered system's
member list and `HasComponent` is false for every component type. -/
theorem kill_isolates_immediately (α : Type) (r : Registry α) (e : Nat)
    (h : e ∈ r.activeEntityIds) :
    (∀ kv ∈ ((r.KillEntity e).1).systems, e ∉ kv.2.entities) ∧
    (∀ c : Fin 64, ((r.KillEntity e).1).HasComponent c e = false) := by
  have hsys : ((r.KillEntity e).1).systems
      = r.systems.map (fun kv => (kv.1, kv.2.RemoveEntityFromSystem e)) := by
    rw [Registry.KillEntity, if_pos h]
    rfl
  have hsig : ((r.KillEntity e).1).entityComponentSignatures
      = r.entityComponentSignatures.set e ∅ := by
    rw [Registry.KillEntity, if_pos h]
    rfl
  constructor
  · intro kv hkv
    rw [hsys] at hkv
    rcases List.mem_map.mp hkv with ⟨kv0, _, rfl⟩
    intro hmem
    have hb := (List.mem_filter.mp hmem).2
    simp at hb
  · intro c
    simp only [Registry.HasComponent, Registry.signatureOf, hsig]
    rw [list_getD_set_self, ite_self]
    simp

/-- Witness for Claim C6 at a concrete registry with one active entity. -/
theorem kill_isolates_immediately_witness :
    0 ∈ ((registryInit.CreateEntity).2).activeEntityIds ∧
    ((∀ kv ∈ ((((registryInit.CreateEntity).2).KillEntity 0).1).systems,
        0 ∉ kv.2.entities) ∧
     (∀ c : Fin 64,
        ((((registryInit.CreateEntity).2).KillEntity 0).1).HasComponent c 0 = false)) :=
  ⟨by decide,
    kill_isolates_immediately Nat ((registryInit.CreateEntity).2) 0 (by decide)⟩

/-! ### Update : reconciliation fold lemmas -/

/-- `AddEntityToSystems` reads but never writes the signature table. -/
lemma addEntityToSystems_signatureOf {α : Type} (r : Registry α) (e x : Nat) :
    (r.AddEntityToSystems e).signatureOf x = r.signatureOf x := rfl

/-- Folding the add-reconciliation pass of `Update` over a list of ids
appends to every system exactly the listed ids whose entity signature covers
the system's required signature, and changes no other registry field. -/
lemma foldl_addEntityToSystems {α : Type} :
    ∀ (l : List Nat) (r : Registry α),
      (l.foldl Registry.AddEntityToSystems r).systems
        = r.systems.map (fun kv => (kv.1,
            { kv.2 with entities := kv.2.entities
                ++ l.filter (fun x =>
                    decide (kv.2.componentSignature ⊆ r.signatureOf x)) })) ∧
      (l.foldl Registry.AddEntityToSystems r).entityComponentSignatures
        = r.entityComponentSignatures ∧
      (l.foldl Registry.AddEntityToSystems r).activeEntityIds = r.activeEntityIds ∧
      (l.foldl Registry.AddEntityToSystems r).entitiesToBeKilled = r.entitiesToBeKilled ∧
      (l.foldl Registry.AddEntityToSystems r).entitiesToBeAdded = r.entitiesToBeAdded ∧
      (l.foldl Registry.AddEntityToSystems r).freeIds = r.freeIds ∧
      (l.foldl Registry.AddEntityToSystems r).numEntity = r.numEntity := by
  intro l
  induction l with
  | nil =>
      intro r
      refine ⟨?_, rfl, rfl, rfl, rfl, rfl, rfl⟩
      simp only [List.foldl_nil, List.filter_nil, List.append_nil]
      exact (List.map_id' r.systems).symm
  | cons a l ih =>
      intro r
      obtain ⟨ihSys, ihSig, ihAct, ihKil, ihAdd, ihFree, ihNum⟩ :=
        ih (r.AddEntityToSystems a)
      rw [List.foldl_cons]
      refine ⟨?_, ihSig, ihAct, ihKil, ihAdd, ihFree, ihNum⟩
      rw [ihSys]
      simp only [addEntityToSystems_signatureOf]
      rw [show (r.AddEntityToSystems a).systems
          = r.systems.map (fun kv =>
              if kv.2.componentSignature ⊆ r.signatureOf a
              then (kv.1, kv.2.AddEntityToSystem a) else kv) from rfl]
      rw [List.map_map]
      apply List.map_congr_left
      intro kv _
      by_cases hc : kv.2.componentSignature ⊆ r.signatureOf a
      · simp only [Function.comp_apply, if_pos hc, System.AddEntityToSystem,
          List.filter_cons, decide_eq_true hc, if_true, List.append_assoc,
          List.singleton_append]
      · simp only [Function.comp_apply, if_neg hc, List.filter_cons]
        rw [if_neg (by simp [hc])]

/-- Boolean form of list-cons non-membership used by the kill fold. -/
lemma decide_not_mem_cons (x a : Nat) (l : List Nat) :
    (decide (x ∉ l) && (a != x)) = decide (x ∉ a :: l) := by
  rcases em (x = a) with h | h
  · subst h
    simp
  · rcases em (x ∈ l) with h2 | h2 <;> simp [h, h2, Ne.symm h]

/-- Folding the kill-retirement pass of `Update` over a list of ids: the
listed ids are filtered out of every member list, their signatures are
cleared, they are erased from the active set, and they are appended in order
to the free queue; the staging sets and the counter are untouched, and the
signatures of unlisted entities are unchanged. -/
lemma foldl_updateKillStep {α : Type} :
    ∀ (l : List Nat) (r : Registry α),
      (l.foldl Registry.updateKillStep r).systems
        = r.systems.map (fun kv => (kv.1,
            { kv.2 with entities := kv.2.entities.filter (fun x => decide (x ∉ l)) })) ∧
      (l.foldl Registry.updateKillStep r).freeIds = r.freeIds ++ l ∧
      (l.foldl Registry.updateKillStep r).numEntity = r.numEntity ∧
      (l.foldl Registry.updateKillStep r).entitiesToBeAdded = r.entitiesToBeAdded ∧
      (l.foldl Registry.updateKillStep r).entitiesToBeKilled = r.entitiesToBeKilled ∧
      (∀ x, x ∈ (l.foldl Registry.updateKillStep r).activeEntityIds ↔
        x ∈ r.activeEntityIds ∧ x ∉ l) ∧
      (∀ e, e ∉ l →
        (l.foldl Registry.updateKillStep r).signatureOf e = r.signatureOf e) := by
  intro l
  induction l with
  | nil =>
      intro r
      refine ⟨?_, by simp, rfl, rfl, rfl, by simp, fun e _ => rfl⟩
      simp only [List.foldl_nil, List.not_mem_nil, not_false_eq_true,
        decide_True, List.filter_true]
      exact (List.map_id' r.systems).symm
  | cons a l ih =>
      intro r
      obtain ⟨ihSys, ihFree, ihNum, ihAdd, ihKil, ihAct, ihSig⟩ :=
        ih (r.updateKillStep a)
      rw [List.foldl_cons]
      have hstepSys : (r.updateKillStep a).systems
          = r.systems.map (fun kv => (kv.1, kv.2.RemoveEntityFromSystem a)) := rfl
      have hstepFree : (r.updateKillStep a).freeIds = r.freeIds ++ [a] := rfl
      have hstepAct : (r.updateKillStep a).activeEntityIds
          = r.activeEntityIds.erase a := rfl
      have hstepSig : (r.updateKillStep a).entityComponentSignatures
          = r.entityComponentSignatures.set a ∅ := rfl
      refine ⟨?_, ?_, ihNum, ihAdd, ihKil, ?_, ?_⟩
      · rw [ihSys, hstepSys, List.map_map]
        apply List.map_congr_left
        intro kv _
        simp only [Function.comp_apply, System.RemoveEntityFromSystem]
        rw [List.filter_filter]
        rw [List.filter_congr (fun x _ => decide_not_mem_cons x a l)]
      · rw [ihFree, hstepFree, List.append_assoc, List.singleton_append]
      · intro x
        rw [ihAct x, hstepAct, Finset.mem_erase]
        constructor
        · rintro ⟨⟨hxa, hxs⟩, hxl⟩
          exact ⟨hxs, by simp [hxa, hxl]⟩
        · rintro ⟨hxs, hxal⟩
          simp only [List.mem_cons, not_or] at hxal
          exact ⟨⟨hxal.1, hxs⟩, hxal.2⟩
      · intro e he
        simp only [List.mem_cons, not_or] at he
        rw [ihSig e he.2]
        simp only [Registry.signatureOf, hstepSig]
        exact list_getD_set_ne _ _ _ _ _ (fun hx => he.1 hx.symm)

/-- Field-level description of `Registry.Update`: the add pass appends each
pending-add id to every system its signature covers, the kill pass then
filters the pending-kill ids out of all member lists, clears their
signatures, deactivates them and pushes them onto the free queue, and both
staging sets end up empty. -/
lemma update_spec {α : Type} (r : Registry α) :
    (r.Update).systems = r.systems.map (fun kv => (kv.1,
        System.mk kv.2.componentSignature
          ((kv.2.entities
            ++ (sortedMembers r.entitiesToBeAdded).filter
              (fun x => decide (kv.2.componentSignature ⊆ r.signatureOf x))).filter
            (fun x => decide (x ∉ sortedMembers r.entitiesToBeKilled))))) ∧
    (∀ x, x ∈ (r.Update).activeEntityIds ↔
        x ∈ r.activeEntityIds ∧ x ∉ sortedMembers r.entitiesToBeKilled) ∧
    (∀ e, e ∉ sortedMembers r.entitiesToBeKilled →
        (r.Update).signatureOf e = r.signatureOf e) ∧
    (r.Update).entitiesToBeAdded = ∅ ∧
    (r.Update).entitiesToBeKilled = ∅ ∧
    (r.Update).freeIds = r.freeIds ++ sortedMembers r.entitiesToBeKilled ∧
    (r.Update).numEntity = r.numEntity := by
  obtain ⟨aSys, aSig, aAct, aKil, aAdd, aFree, aNum⟩ :=
    foldl_addEntityToSystems (sortedMembers r.entitiesToBeAdded) r
  have hKL : sortedMembers (({ ((sortedMembers r.entitiesToBeAdded).foldl
        Registry.AddEntityToSystems r) with
        entitiesToBeAdded := (∅ : Finset Nat) } : Registry α).entitiesToBeKilled)
      = sortedMembers r.entitiesToBeKilled :=
    congrArg sortedMembers aKil
  obtain ⟨kSys, kFree, kNum, kAdd, kKil, kAct, kSig⟩ :=
    foldl_updateKillStep (sortedMembers r.entitiesToBeKilled)
      { ((sortedMembers r.entitiesToBeAdded).foldl Registry.AddEntityToSystems r) with
        entitiesToBeAdded := (∅ : Finset Nat) }
  have hUdef : r.Update = { ((sortedMembers r.entitiesToBeKilled).foldl
      Registry.updateKillStep
      { ((sortedMembers r.entitiesToBeAdded).foldl Registry.AddEntityToSystems r) with
        entitiesToBeAdded := (∅ : Finset Nat) }) with
      entitiesToBeKilled := (∅ : Finset Nat) } := by
    simp only [Registry.Update]
    rw [hKL]
  have aSys' : ({ ((sortedMembers r.entitiesToBeAdded).foldl
        Registry.AddEntityToSystems r) with
        entitiesToBeAdded := (∅ : Finset Nat) } : Registry α).systems
      = r.systems.map (fun kv => (kv.1,
          System.mk kv.2.componentSignature
            (kv.2.entities
              ++ (sortedMembers r.entitiesToBeAdded).filter
                (fun x => decide (kv.2.componentSignature ⊆ r.signatureOf x))))) :=
    aSys
  refine ⟨?_, ?_, ?_, ?_, ?_, ?_, ?_⟩
  · rw [hUdef]
    rw [show ({ ((sortedMembers r.entitiesToBeKilled).foldl Registry.updateKillStep
        { ((sortedMembers r.entitiesToBeAdded).foldl Registry.AddEntityToSystems r) with
          entitiesToBeAdded := (∅ : Finset Nat) }) with
        entitiesToBeKilled := (∅ : Finset Nat) } : Registry α).systems
      = ((sortedMembers r.entitiesToBeKilled).foldl Registry.updateKillStep
        { ((sortedMembers r.entitiesToBeAdded).foldl Registry.AddEntityToSystems r) with
          entitiesToBeAdded := (∅ : Finset Nat) }).systems from rfl]
    rw [kSys, aSys', List.map_map]
    exact List.map_congr_left (fun kv _ => rfl)
  · intro x
    have hx : x ∈ (r.Update).activeEntityIds ↔
        x ∈ ({ ((sortedMembers r.entitiesToBeAdded).foldl
            Registry.AddEntityToSystems r) with
            entitiesToBeAdded := (∅ : Finset Nat) } : Registry α).activeEntityIds ∧
        x ∉ sortedMembers r.entitiesToBeKilled := by
      rw [hUdef]
      exact kAct x
    rwa [show ({ ((sortedMembers r.entitiesToBeAdded).foldl
        Registry.AddEntityToSystems r) with
        entitiesToBeAdded := (∅ : Finset Nat) } : Registry α).activeEntityIds
      = r.activeEntityIds from aAct] at hx
  · intro e he
    have hx : (r.Update).signatureOf e
        = ({ ((sortedMembers r.entitiesToBeAdded).foldl
            Registry.AddEntityToSystems r) with
            entitiesToBeAdded := (∅ : Finset Nat) } : Registry α).signatureOf e := by
      rw [hUdef]
      exact kSig e he
    rw [hx]
    simp only [Registry.signatureOf]
    rw [show ({ ((sortedMembers r.entitiesToBeAdded).foldl
        Registry.AddEntityToSystems r) with
        entitiesToBeAdded := (∅ : Finset Nat) } : Registry α).entityComponentSignatures
      = r.entityComponentSignatures from aSig]
  · rw [hUdef]
    exact kAdd
  · rw [hUdef]
  · rw [hUdef]
    have hx : ((sortedMembers r.entitiesToBeKilled).foldl Registry.updateKillStep
        { ((sortedMembers r.entitiesToBeAdded).foldl Registry.AddEntityToSystems r) with
          entitiesToBeAdded := (∅ : Finset Nat) }).freeIds
        = ({ ((sortedMembers r.entitiesToBeAdded).foldl
            Registry.AddEntityToSystems r) with
            entitiesToBeAdded := (∅ : Finset Nat) } : Registry α).freeIds
          ++ sortedMembers r.entitiesToBeKilled := kFree
    rw [show ({ ((sortedMembers r.entitiesToBeAdded).foldl
        Registry.AddEntityToSystems r) with
        entitiesToBeAdded := (∅ : Finset Nat) } : Registry α).freeIds
      = r.freeIds from aFree] at hx
    exact hx
  · rw [hUdef]
    have hx : ((sortedMembers r.entitiesToBeKilled).foldl Registry.updateKillStep
        { ((sortedMembers r.entitiesToBeAdded).foldl Registry.AddEntityToSystems r) with
          entitiesToBeAdded := (∅ : Finset Nat) }).numEntity
        = ({ ((sortedMembers r.entitiesToBeAdded).foldl
            Registry.AddEntityToSystems r) with
            entitiesToBeAdded := (∅ : Finset Nat) } : Registry α).numEntity := kNum
    rw [show ({ ((sortedMembers r.entitiesToBeAdded).foldl
        Registry.AddEntityToSystems r) with
        entitiesToBeAdded := (∅ : Finset Nat) } : Registry α).numEntity
      = r.numEntity from aNum] at hx
    exact hx

/-! ### Claim C1 : signature/membership consistency after Update -/

/-- Claim C1 (amended): immediately after `Update()`, membership matches
signatures for the entities reconciled by that `Update` — for every system
and every entity that was staged pending-add, not staged pending-kill,
active, and not already a member of any system, the entity is in the
system's member list afterwards iff its signature covers the system's
required signature.  (The original unrestricted claim fails: component
changes made after an entity was reconciled, and systems registered after
it, are never re-reconciled — see the counterexample.) -/
theorem signature_membership_after_update (α : Type) (r : Registry α) (e : Nat)
    (hpre : ∀ kv ∈ r.systems, e ∉ kv.2.entities)
    (hadd : e ∈ r.entitiesToBeAdded)
    (hkill : e ∉ r.entitiesToBeKilled)
    (hact : e ∈ r.activeEntityIds) :
    e ∈ (r.Update).activeEntityIds ∧
    ∀ kv ∈ (r.Update).systems,
      (e ∈ kv.2.entities ↔ kv.2.componentSignature ⊆ (r.Update).signatureOf e) := by
  obtain ⟨uSys, uAct, uSig, _, _, _, _⟩ := update_spec r
  have heK : e ∉ sortedMembers r.entitiesToBeKilled := fun hmem =>
    hkill (mem_sortedMembers.mp hmem)
  have heL : e ∈ sortedMembers r.entitiesToBeAdded := mem_sortedMembers.mpr hadd
  refine ⟨(uAct e).mpr ⟨hact, heK⟩, ?_⟩
  intro kv hkv
  rw [uSys] at hkv
  rcases List.mem_map.mp hkv with ⟨kv0, hkv0, rfl⟩
  rw [uSig e heK]
  show e ∈ (kv0.2.entities
      ++ (sortedMembers r.entitiesToBeAdded).filter
        (fun x => decide (kv0.2.componentSignature ⊆ r.signatureOf x))).filter
      (fun x => decide (x ∉ sortedMembers r.entitiesToBeKilled))
    ↔ kv0.2.componentSignature ⊆ r.signatureOf e
  rw [List.mem_filter, List.mem_append, List.mem_filter]
  constructor
  · rintro ⟨hmem | ⟨_, hp⟩, _⟩
    · exact absurd hmem (hpre kv0 hkv0)
    · exact of_decide_eq_true hp
  · intro hsub
    exact ⟨Or.inr ⟨heL, decide_eq_true hsub⟩, decide_eq_true heK⟩

/-- A render-like system requiring component 0, used in concrete runs. -/
def sysRender : System := (System.mk ∅ []).RequireComponent 0

/-- The concrete run refuting Claim C1: register the system, create entity
0, reconcile, then attach component 0 and reconcile again. -/
def c1Run : Registry Nat :=
  (((((registryInit.AddSystem 0 sysRender).CreateEntity).2).Update).AddComponent 0 0 7).Update

/-- Claim C1 counterexample: after attaching component 0 to the
already-reconciled entity 0 and calling `Update()` again, entity 0 is
active, its signature covers the registered system's required signature,
yet it is not in the system's member list — the entity is never re-staged,
so the claimed equivalence fails after the second `Update`. -/
theorem signature_membership_counterexample :
    0 ∈ c1Run.activeEntityIds ∧
    c1Run.systems.length = 1 ∧
    ∀ kv ∈ c1Run.systems,
      (kv.2.componentSignature ⊆ c1Run.signatureOf 0 ∧ 0 ∉ kv.2.entities) := by
  decide

/-- The concrete pre-`Update` registry for the Claim C1 witness: one
registered system with empty required signature and one freshly created
entity. -/
def c1WitnessPre : Registry Nat :=
  ((registryInit.AddSystem 0 (System.mk ∅ [])).CreateEntity).2

/-- Witness for Claim C1 (amended) at a concrete registry. -/
theorem signature_membership_witness :
    (∀ kv ∈ c1WitnessPre.systems, 0 ∉ kv.2.entities) ∧
    0 ∈ c1WitnessPre.entitiesToBeAdded ∧
    0 ∉ c1WitnessPre.entitiesToBeKilled ∧
    0 ∈ c1WitnessPre.activeEntityIds ∧
    (0 ∈ (c1WitnessPre.Update).activeEntityIds ∧
     ∀ kv ∈ (c1WitnessPre.Update).systems,
       (0 ∈ kv.2.entities ↔
         kv.2.componentSignature ⊆ (c1WitnessPre.Update).signatureOf 0)) :=
  ⟨by decide, by decide, by decide, by decide,
    signature_membership_after_update Nat c1WitnessPre 0 (by decide) (by decide)
      (by decide) (by decide)⟩

/-! ### Claim C4 : free queue vs pending-kill staging -/

/-- The lifecycle operations of Claim C4's traces. -/
inductive Op where
  | create : Op
  | kill : Nat → Op
  | update : Op
  | clearAll : Op
deriving DecidableEq

/-- Apply one lifecycle operation to a registry. -/
def applyOp (r : Registry Nat) : Op → Registry Nat
  | Op.create => (r.CreateEntity).2
  | Op.kill e => (r.KillEntity e).1
  | Op.update => r.Update
  | Op.clearAll => r.ClearAllEntities

/-- Run a trace of lifecycle operations from a freshly constructed
registry. -/
def runTrace (ops : List Op) : Registry Nat :=
  ops.foldl applyOp registryInit

/-- Lifecycle invariant: free ids are not active, not pending-kill, below
the high-water counter, and duplicate-free; active ids are below the
counter; pending-kill ids are still active. -/
def RegInv (r : Registry Nat) : Prop :=
  (∀ i ∈ r.freeIds,
      i ∉ r.activeEntityIds ∧ i ∉ r.entitiesToBeKilled ∧ i < r.numEntity) ∧
  r.freeIds.Nodup ∧
  (∀ i ∈ r.activeEntityIds, i < r.numEntity) ∧
  (∀ i ∈ r.entitiesToBeKilled, i ∈ r.activeEntityIds)

/-- `CreateEntity` preserves the lifecycle invariant. -/
lemma regInv_create (r : Registry Nat) (h : RegInv r) : RegInv (r.CreateEntity).2 := by
  obtain ⟨hFree, hNd, hAct, hKil⟩ := h
  obtain ⟨s1, s2, s3, s4, s5, s6, s7, ⟨k, hk⟩, s9, s10⟩ := createEntity_spec r
  have hsub : ∀ i, i ∈ (r.CreateEntity).2.freeIds → i ∈ r.freeIds := by
    intro i hi
    rw [hk] at hi
    exact (List.drop_sublist k r.freeIds).subset hi
  refine ⟨?_, ?_, ?_, ?_⟩
  · intro i hi
    obtain ⟨hia, hik, hin⟩ := hFree i (hsub i hi)
    refine ⟨?_, by rwa [s5], by omega⟩
    rw [s3]
    intro hmem
    rcases Finset.mem_insert.mp hmem with rfl | hmem2
    · exact (s10 hNd) hi
    · exact hia hmem2
  · rw [hk]
    exact hNd.sublist (List.drop_sublist k r.freeIds)
  · intro i hi
    rw [s3] at hi
    rcases Finset.mem_insert.mp hi with rfl | hi2
    · rcases s9 with h9 | h9
      · have := (hFree _ h9).2.2
        omega
      · exact h9
    · have := hAct i hi2
      omega
  · intro i hi
    rw [s5] at hi
    rw [s3]
    exact Finset.mem_insert_of_mem (hKil i hi)

/-- `KillEntity` preserves the lifecycle invariant. -/
lemma regInv_kill (r : Registry Nat) (e : Nat) (h : RegInv r) :
    RegInv (r.KillEntity e).1 := by
  obtain ⟨hFree, hNd, hAct, hKil⟩ := h
  by_cases he : e ∈ r.activeEntityIds
  · have hfields : (r.KillEntity e).1.freeIds = r.freeIds ∧
        (r.KillEntity e).1.activeEntityIds = r.activeEntityIds ∧
        (r.KillEntity e).1.entitiesToBeKilled = insert e r.entitiesToBeKilled ∧
        (r.KillEntity e).1.numEntity = r.numEntity := by
      rw [Registry.KillEntity, if_pos he]
      exact ⟨rfl, rfl, rfl, rfl⟩
    obtain ⟨f1, f2, f3, f4⟩ := hfields
    refine ⟨?_, by rwa [f1], ?_, ?_⟩
    · intro i hi
      rw [f1] at hi
      obtain ⟨hia, hik, hin⟩ := hFree i hi
      refine ⟨by rwa [f2], ?_, by rw [f4]; exact hin⟩
      rw [f3]
      intro hmem
      rcases Finset.mem_insert.mp hmem with rfl | hmem2
      · exact hia he
      · exact hik hmem2
    · intro i hi
      rw [f2] at hi
      rw [f4]
      exact hAct i hi
    · intro i hi
      rw [f3] at hi
      rw [f2]
      rcases Finset.mem_insert.mp hi with rfl | hi2
      · exact he
      · exact hKil i hi2
  · have hsame : (r.KillEntity e).1 = r := by
      rw [Registry.KillEntity, if_neg he]
    rw [hsame]
    exact ⟨hFree, hNd, hAct, hKil⟩

/-- `Update` preserves the lifecycle invariant. -/
lemma regInv_update (r : Registry Nat) (h : RegInv r) : RegInv r.Update := by
  obtain ⟨hFree, hNd, hAct, hKil⟩ := h
  obtain ⟨_, uAct, _, _, uKil, uFree, uNum⟩ := update_spec r
  refine ⟨?_, ?_, ?_, ?_⟩
  · intro i hi
    rw [uFree] at hi
    rw [uNum, uKil]
    rcases List.mem_append.mp hi with hi1 | hi2
    · obtain ⟨hia, _, hin⟩ := hFree i hi1
      refine ⟨?_, Finset.not_mem_empty i, hin⟩
      intro hmem
      exact hia ((uAct i).mp hmem).1
    · refine ⟨?_, Finset.not_mem_empty i, ?_⟩
      · intro hmem
        exact ((uAct i).mp hmem).2 hi2
      · exact hAct i (hKil i (mem_sortedMembers.mp hi2))
  · rw [uFree, List.nodup_append]
    refine ⟨hNd, nodup_sortedMembers _, ?_⟩
    intro i hi1 hi2
    exact (hFree i hi1).1 (hKil i (mem_sortedMembers.mp hi2))
  · intro i hi
    rw [uNum]
    exact hAct i ((uAct i).mp hi).1
  · intro i hi
    rw [uKil] at hi
    exact absurd hi (Finset.not_mem_empty i)

/-- The invariant holds for the fresh registry. -/
lemma regInv_init : RegInv registryInit :=
  ⟨fun i hi => absurd hi (List.not_mem_nil i),
   List.nodup_nil,
   fun i hi => absurd hi (Finset.not_mem_empty i),
   fun i hi => absurd hi (Finset.not_mem_empty i)⟩

/-- The invariant is preserved along every trace that avoids
`ClearAllEntities`. -/
lemma regInv_runTrace : ∀ (ops : List Op) (r : Registry Nat),
    (∀ op ∈ ops, op ≠ Op.clearAll) → RegInv r → RegInv (ops.foldl applyOp r) := by
  intro ops
  induction ops with
  | nil => intro r _ h; exact h
  | cons op ops ih =>
      intro r hop h
      rw [List.foldl_cons]
      refine ih _ (fun o ho => hop o (List.mem_cons_of_mem _ ho)) ?_
      rcases op with _ | e | _ | _
      · exact regInv_create r h
      · exact regInv_kill r e h
      · exact regInv_update r h
      · exact absurd rfl (hop Op.clearAll (List.mem_cons_self _ _))

/-- Claim C4 (amended): along every sequence of `CreateEntity`,
`KillEntity` and `Update` calls — without `ClearAllEntities` — no id in the
free queue belongs to an entity still staged pending-kill: ids are staged
into the free queue only once fully reconciled.  (`ClearAllEntities` breaks
this, see the counterexample: it frees all active ids but never clears the
pending-kill set.) -/
theorem free_queue_disjoint_from_pending_kill (ops : List Op)
    (h : Op.clearAll ∉ ops) :
    ∀ i ∈ (runTrace ops).freeIds, i ∉ (runTrace ops).entitiesToBeKilled := by
  have hinv := regInv_runTrace ops registryInit
    (fun op hop hEq => h (hEq ▸ hop)) regInv_init
  exact fun i hi => (hinv.1 i hi).2.1

/-- Claim C4 counterexample: create entity 0, kill it, then
`ClearAllEntities` — id 0 ends up on the free queue while entity 0 is still
staged in the pending-kill set, because `ClearAllEntities` pushes every
active id onto the queue without clearing `entitiesToBeKilled`. -/
theorem free_queue_counterexample :
    0 ∈ (runTrace [Op.create, Op.kill 0, Op.clearAll]).freeIds ∧
    0 ∈ (runTrace [Op.create, Op.kill 0, Op.clearAll]).entitiesToBeKilled := by
  decide

/-- Witness for Claim C4 (amended) at a concrete clearAll-free trace. -/
theorem free_queue_disjoint_witness :
    Op.clearAll ∉ [Op.create, Op.kill 0, Op.update] ∧
    ∀ i ∈ (runTrace [Op.create, Op.kill 0, Op.update]).freeIds,
      i ∉ (runTrace [Op.create, Op.kill 0, Op.update]).entitiesToBeKilled :=
  ⟨by decide, free_queue_disjoint_from_pending_kill _ (by decide)⟩
